import Mathlib

/-!
Shallow embedding of the famiguru identity-resolution / conversation-linking
core and its topic broadcaster.

Tables are modelled as Lean lists held in a `DB` record; `sent_at` ordering is
the list position (`conversations` is kept in chronological order, oldest
first, so a `order by sent_at desc limit 5` read is `reverse.take 5`).
Outcomes of external collaborator calls (LINE profile fetch, LINE push,
OpenAI completion, storage insert errors) are supplied through environment
records, one per processed item, mirroring exactly where the source code
consults each collaborator.
-/

/-- Row of the `profiles` table. -/
structure Profile where
  id : Nat
  line_user_id : String
  display_name : String
  role : String
deriving Repr, DecidableEq

/-- Row of the `families` table (`line_group_id` is nullable). -/
structure Family where
  id : Nat
  line_group_id : Option String
  name : String
deriving Repr, DecidableEq

/-- Row of the `family_members` join table.  The source refers to the member
column as `user_id` in the webhook route and `profile_id` in the cron route;
both denote the member profile id (spec section 3: "family id, user (profile)
id"), modelled here as the single field `user_id`. -/
structure FamilyMember where
  family_id : Nat
  user_id : Nat
deriving Repr, DecidableEq

/-- Row of the `conversations` table. -/
structure Conversation where
  sender_id : Nat
  family_id : Option Nat
  content : String
  is_ai_generated : Bool
deriving Repr, DecidableEq

/-- Row of the `daily_topics` table. -/
structure DailyTopic where
  family_id : Option Nat
  topic : String
  sent_to_user_id : Option Nat
deriving Repr, DecidableEq

/-- The relational store.  `conversations` is chronological (oldest first);
inserts append at the end.  `nextId` supplies freshly generated primary
keys. -/
structure DB where
  profiles : List Profile
  families : List Family
  family_members : List FamilyMember
  conversations : List Conversation
  daily_topics : List DailyTopic
  nextId : Nat
deriving Repr, DecidableEq

/-- One delivered LINE push message (target id, text). -/
structure Push where
  target : String
  text : String
deriving Repr, DecidableEq

/-- Drop leading whitespace characters. -/
def trimLeftChars : List Char → List Char
  | [] => []
  | c :: cs => if c.isWhitespace then trimLeftChars cs else c :: cs

/-- JavaScript `String.prototype.trim`, modelled structurally over the
character list (drop whitespace from both ends). -/
def strTrim (s : String) : String :=
  String.mk ((trimLeftChars ((trimLeftChars s.data).reverse)).reverse)

namespace Webhook

/-- `event.source` of a LINE webhook event. -/
structure EventSource where
  userId : String
  groupId : Option String
  roomId : Option String
deriving Repr, DecidableEq

/-- One webhook event (`event.type`, `event.message.type`,
`event.message.text`, `event.source`). -/
structure Event where
  type : String
  messageType : String
  text : String
  source : EventSource
deriving Repr, DecidableEq

/-- Outcomes of the external calls made while processing one event in the
group-aware webhook route.  `lineProfile` is the display name returned by
`lineClient.getProfile` (`none` = the call threw and was caught);
`profileInsertErr` makes the `profiles` insert fail (e.g. a unique
violation); `familiesInsertOk = false` makes a `families` insert return no
row; `memberInsertErr` is the `family_members` insert error message;
`convInsertErr` fails the human-message `conversations` insert; `aiTrial` is
the `Math.random() < 0.3` draw; `gen` is the OpenAI completion content for a
given prompt (`none` = missing content), `genThrows`/`pushThrows` make the
OpenAI call / `pushMessage` throw; `aiConvInsertErr` fails the AI-message
`conversations` insert. -/
structure WebhookEnv where
  lineProfile : Option String
  profileInsertErr : Bool
  familiesInsertOk : Bool
  memberInsertErr : Option String
  convInsertErr : Bool
  aiTrial : Bool
  gen : String → Option String
  genThrows : Bool
  pushThrows : Bool
  aiConvInsertErr : Bool

/-- `getOrCreateUserProfile` of the group-aware webhook route.  The
`.single()` select yields a row exactly when one row matches.  On insert
failure the source logs and returns `null`; no re-read is attempted. -/
def getOrCreateUserProfile (env : WebhookEnv) (db : DB) (userId : String) :
    Option Nat × DB :=
  match db.profiles.filter (fun p => p.line_user_id == userId) with
  | [p] => (some p.id, db)
  | _ =>
    let displayName := match env.lineProfile with
      | some n => n
      | none => "Guest"
    if env.profileInsertErr then
      (none, db)
    else
      let newProfile : Profile :=
        { id := db.nextId, line_user_id := userId,
          display_name := displayName, role := "member" }
      (some db.nextId,
       { db with profiles := db.profiles ++ [newProfile],
                 nextId := db.nextId + 1 })

/-- The membership filter of the personal branch of `getOrCreateFamily`:
a `family_members` row of this profile whose joined family exists and has a
null `line_group_id` (the `families!inner` join with
`.is('families.line_group_id', null)`). -/
def personalPred (db : DB) (profileId : Nat) : FamilyMember → Bool :=
  fun m =>
    m.user_id == profileId &&
    db.families.any (fun f => f.id == m.family_id && f.line_group_id == none)

/-- Family-determination phase of `getOrCreateFamily` (everything before the
member-registration insert). -/
def resolveFamilyId (env : WebhookEnv) (db : DB) (profileId : Nat)
    (lineGroupId : Option String) : Option Nat × DB :=
  match lineGroupId with
  | some g =>
    match db.families.filter (fun f => f.line_group_id == some g) with
    | [f] => (some f.id, db)
    | _ =>
      if env.familiesInsertOk then
        let newFamily : Family :=
          { id := db.nextId, line_group_id := some g, name := "家族グループ" }
        (some db.nextId,
         { db with families := db.families ++ [newFamily],
                   nextId := db.nextId + 1 })
      else
        (none, db)
  | none =>
    match db.family_members.find? (personalPred db profileId) with
    | some m => (some m.family_id, db)
    | none =>
      if env.familiesInsertOk then
        let newFamily : Family :=
          { id := db.nextId, line_group_id := none, name := "マイホーム" }
        (some db.nextId,
         { db with families := db.families ++ [newFamily],
                   nextId := db.nextId + 1 })
      else
        (none, db)

/-- `getOrCreateFamily` of the group-aware webhook route: determine the
family, then attempt the `family_members` insert.  An insert error whose
message contains "duplicate" is silently ignored, any other error is only
logged; either way the resolved family id is returned. -/
def getOrCreateFamily (env : WebhookEnv) (db : DB) (profileId : Nat)
    (lineUserId : String) (lineGroupId : Option String) : Option Nat × DB :=
  match resolveFamilyId env db profileId lineGroupId with
  | (none, db1) => (none, db1)
  | (some familyId, db1) =>
    match env.memberInsertErr with
    | none =>
      (some familyId,
       { db1 with family_members :=
           db1.family_members ++ [{ family_id := familyId, user_id := profileId }] })
    | some _msg => (some familyId, db1)

/-- The `conversations` read in the family-scoped `handleAIResponse`:
`family_id` equal, ordered `sent_at` descending, limit 5 (newest first). -/
def recentConversations (db : DB) (familyId : Nat) : List Conversation :=
  ((db.conversations.filter (fun c => c.family_id == some familyId)).reverse).take 5

/-- The prompt body of the family-scoped `handleAIResponse`: the fetched rows
reversed back to chronological order, contents joined with newlines, no
filtering on `is_ai_generated`. -/
def aiHistory (db : DB) (familyId : Nat) : String :=
  String.intercalate "\n"
    (((recentConversations db familyId).reverse).map (fun c => c.content))

/-- Family-scoped `handleAIResponse` of the group-aware webhook route.
Returns the updated store, the delivered pushes, and whether an uncaught
exception escaped to the caller (the OpenAI call and `pushMessage` are not
wrapped in `try`). -/
def handleAIResponse (env : WebhookEnv) (db : DB) (familyId : Option Nat)
    (senderId : Nat) (replyToId : String) : DB × List Push × Bool :=
  match familyId with
  | none => (db, [], false)
  | some validFamilyId =>
    let history := aiHistory db validFamilyId
    if env.genThrows then
      (db, [], true)
    else
      match (env.gen history).map strTrim with
      | none => (db, [], false)
      | some aiText =>
        if aiText == "" then
          (db, [], false)
        else if env.pushThrows then
          (db, [], true)
        else
          let sent : Push := { target := replyToId, text := aiText }
          let entry : Conversation :=
            { sender_id := senderId, family_id := some validFamilyId,
              content := aiText, is_ai_generated := true }
          if env.aiConvInsertErr then
            (db, [sent], false)
          else
            ({ db with conversations := db.conversations ++ [entry] },
             [sent], false)

/-- The body of the event loop of the group-aware webhook `POST` for one
event.  The third component records whether an uncaught exception escaped
(aborting the remaining events via the outer `catch`). -/
def processEvent (env : WebhookEnv) (db : DB) (ev : Event) :
    DB × List Push × Bool :=
  if ev.type != "message" || ev.messageType != "text" then
    (db, [], false)
  else
    let userId := ev.source.userId
    let groupId := ev.source.groupId <|> ev.source.roomId
    let text := ev.text
    match getOrCreateUserProfile env db userId with
    | (none, db1) => (db1, [], false)
    | (some profileId, db1) =>
      match getOrCreateFamily env db1 profileId userId groupId with
      | (familyId, db2) =>
        if env.convInsertErr then
          (db2, [], false)
        else
          let entry : Conversation :=
            { sender_id := profileId, family_id := familyId,
              content := text, is_ai_generated := false }
          let db3 := { db2 with conversations := db2.conversations ++ [entry] }
          match familyId with
          | none => (db3, [], false)
          | some f =>
            if env.aiTrial then
              handleAIResponse env db3 (some f) profileId (groupId.getD userId)
            else
              (db3, [], false)

/-- Sequential processing of the events of one webhook delivery; stops at the
first uncaught exception. -/
def processEvents (env : Nat → WebhookEnv) (i : Nat) (events : List Event)
    (db : DB) (acc : List Push) : DB × List Push × Bool :=
  match events with
  | [] => (db, acc, false)
  | ev :: rest =>
    match processEvent (env i) db ev with
    | (db1, p, threw) =>
      if threw then
        (db1, acc ++ p, true)
      else
        processEvents env (i + 1) rest db1 (acc ++ p)

/-- Result of a webhook `POST`: HTTP status, response message, resulting
store, delivered pushes. -/
structure WebhookResult where
  status : Nat
  message : String
  db : DB
  pushes : List Push
deriving Repr, DecidableEq

/-- The group-aware webhook `POST` handler.  `sigValid` is the outcome of
`validateSignature` over the raw body; on failure the handler answers 200
"Invalid signature" without touching any state.  An exception escaping the
event loop is caught and answered with 200 "Error". -/
def POST (sigValid : Bool) (events : List Event) (env : Nat → WebhookEnv)
    (db : DB) : WebhookResult :=
  if !sigValid then
    { status := 200, message := "Invalid signature", db := db, pushes := [] }
  else
    match processEvents env 0 events db [] with
    | (db1, pushes, threw) =>
      if threw then
        { status := 200, message := "Error", db := db1, pushes := pushes }
      else
        { status := 200, message := "OK", db := db1, pushes := pushes }

end Webhook

namespace WebhookSolo

/-- The `conversations` read of the sender-scoped (degraded, 1:1-only)
`handleAIResponse`: `sender_id` equal, ordered `sent_at` descending,
limit 5 (newest first). -/
def recentBySender (db : DB) (senderId : Nat) : List Conversation :=
  ((db.conversations.filter (fun c => c.sender_id == senderId)).reverse).take 5

/-- The prompt body of the sender-scoped `handleAIResponse`: AI-generated
rows filtered out, contents reversed back to chronological order and joined
with newlines, prefixed by the fixed instruction line. -/
def soloPrompt (userMessages : List String) : String :=
  "以下の会話履歴を読んで、短くて明るい相槌やツッコミを1つ生成してください。\n\n" ++
    String.intercalate "\n" userMessages

/-- Sender-scoped `handleAIResponse` of the 1:1-only webhook route.  Aborts
when the history is empty or no human rows remain after filtering out
AI-generated rows; otherwise generates, pushes to the sender's direct
channel, and logs the AI message with `family_id` null.  The third result
component records a rethrown exception (the function rethrows; its caller
catches). -/
def handleAIResponse (env : Webhook.WebhookEnv) (db : DB) (senderId : Nat)
    (lineUserId : String) : DB × List Push × Bool :=
  let conversations := recentBySender db senderId
  if conversations.isEmpty then
    (db, [], false)
  else
    let userMessages :=
      ((conversations.filter (fun c => !c.is_ai_generated)).map
        (fun c => c.content)).reverse
    if userMessages.isEmpty then
      (db, [], false)
    else
      if env.genThrows then
        (db, [], true)
      else
        match (env.gen (soloPrompt userMessages)).map strTrim with
        | none => (db, [], false)
        | some aiMessage =>
          if aiMessage == "" then
            (db, [], false)
          else if env.pushThrows then
            (db, [], true)
          else
            let sent : Push := { target := lineUserId, text := aiMessage }
            let entry : Conversation :=
              { sender_id := senderId, family_id := none,
                content := aiMessage, is_ai_generated := true }
            if env.aiConvInsertErr then
              (db, [sent], false)
            else
              ({ db with conversations := db.conversations ++ [entry] },
               [sent], false)

end WebhookSolo

namespace DailyTopicCron

/-- Outcomes of the external calls made while processing one family in the
scheduled broadcast.  `gen` is the OpenAI topic content (`none` = the call
threw or returned no content); the push flags decide whether the
group / fallback / direct `pushMessage` call succeeds (a failure throws and
is caught at the call site); `dailyInsertErr` fails the `daily_topics`
insert. -/
structure CronEnv where
  gen : Option String
  groupPushOk : Bool
  fallbackPushOk : Bool
  directPushOk : Bool
  dailyInsertErr : Bool
deriving Repr

/-- `getFamilyMemberLineUserId` of the cron route: first `family_members`
row for the family (limit 1), then that member profile's `line_user_id`
via a `.single()` select; any miss yields `null`. -/
def getFamilyMemberLineUserId (db : DB) (familyId : Nat) : Option String :=
  match db.family_members.find? (fun m => m.family_id == familyId) with
  | none => none
  | some m =>
    match db.profiles.filter (fun p => p.id == m.user_id) with
    | [p] => if p.line_user_id == "" then none else some p.line_user_id
    | _ => none

/-- Steps 5 of the cron loop body, reached only after a successful delivery:
the best-effort `daily_topics` insert (its failure is only logged) followed
by `successCount++`.  The cron route leaves `sentToUserId` at its initial
`null` in every path, so the stored `sent_to_user_id` is `none`. -/
def cronSave (ce : CronEnv) (db : DB) (fam : Family) (topic : String)
    (pushes : List Push) : DB × List Push × Bool :=
  if ce.dailyInsertErr then
    (db, pushes, true)
  else
    ({ db with daily_topics := db.daily_topics ++
        [{ family_id := some fam.id, topic := topic, sent_to_user_id := none }] },
     pushes, true)

/-- The body of the per-family loop of the scheduled broadcast (cron `GET`).
The third result component is `true` exactly when the family is counted as a
success (`successCount++`), `false` when it is counted as an error
(`errorCount++`); every path yields exactly one of the two. -/
def cronStep (ce : CronEnv) (db : DB) (fam : Family) : DB × List Push × Bool :=
  match ce.gen.map strTrim with
  | none => (db, [], false)
  | some topic =>
    if topic == "" then
      (db, [], false)
    else
      match fam.line_group_id with
      | some g =>
        if ce.groupPushOk then
          cronSave ce db fam topic [{ target := g, text := topic }]
        else
          match getFamilyMemberLineUserId db fam.id with
          | some fallbackUserId =>
            if ce.fallbackPushOk then
              cronSave ce db fam topic [{ target := fallbackUserId, text := topic }]
            else
              (db, [], false)
          | none => (db, [], false)
      | none =>
        match getFamilyMemberLineUserId db fam.id with
        | none => (db, [], false)
        | some lineUserId =>
          if ce.directPushOk then
            cronSave ce db fam topic [{ target := lineUserId, text := topic }]
          else
            (db, [], false)

/-- The per-family loop of the scheduled broadcast, threading the store, the
delivered pushes and the two counters. -/
def cronLoop (env : Nat → CronEnv) (i : Nat) (fams : List Family) (db : DB)
    (acc : List Push) (s e : Nat) : DB × List Push × Nat × Nat :=
  match fams with
  | [] => (db, acc, s, e)
  | fam :: rest =>
    match cronStep (env i) db fam with
    | (db1, p, ok) =>
      if ok then
        cronLoop env (i + 1) rest db1 (acc ++ p) (s + 1) e
      else
        cronLoop env (i + 1) rest db1 (acc ++ p) s (e + 1)

/-- Response of the cron `GET`: HTTP status and the summary counters
(absent on paths that do not report them), plus resulting store and
delivered pushes. -/
structure CronResult where
  status : Nat
  processed : Option Nat
  success : Option Nat
  errors : Option Nat
  db : DB
  pushes : List Push
deriving Repr, DecidableEq

/-- The scheduled broadcast handler (cron `GET`).  `fetchErr` is a failure
of the initial `families` select (the only 500 path); an empty family list
answers `processed = 0`; otherwise the loop runs over every family and the
summary reports `processed = families.length` with the two counters. -/
def GET (fetchErr : Bool) (env : Nat → CronEnv) (db : DB) : CronResult :=
  if fetchErr then
    { status := 500, processed := none, success := none, errors := none,
      db := db, pushes := [] }
  else if db.families.isEmpty then
    { status := 200, processed := some 0, success := none, errors := none,
      db := db, pushes := [] }
  else
    match cronLoop env 0 db.families db [] 0 0 with
    | (db1, pushes, s, e) =>
      { status := 200, processed := some db.families.length,
        success := some s, errors := some e, db := db1, pushes := pushes }

end DailyTopicCron

/-! ## Shared concrete fixtures -/

/-- An empty store. -/
def dbEmpty : DB :=
  { profiles := [], families := [], family_members := [], conversations := [],
    daily_topics := [], nextId := 1 }

/-- A webhook environment in which every collaborator call succeeds. -/
def envOk : Webhook.WebhookEnv :=
  { lineProfile := some "たろう", profileInsertErr := false,
     familiesInsertOk := true, memberInsertErr := none, convInsertErr := false,
    aiTrial := true, gen := fun _ => some "いいね！", genThrows := false,
    pushThrows := false, aiConvInsertErr := false }

/-! ## C7: signature verification failure -/

/-- C7: a webhook delivery whose signature fails verification is answered
with a 200-class response and performs zero state mutation: the store is
returned unchanged (no Profile, Family, FamilyMembership or
ConversationEntry touched) and no push is delivered, for every event batch,
environment and store. -/
theorem c7_invalid_signature_no_processing (events : List Webhook.Event)
    (env : Nat → Webhook.WebhookEnv) (db : DB) :
    Webhook.POST false events env db =
      { status := 200, message := "Invalid signature", db := db, pushes := [] } :=
  rfl

/-- C7 witness: the theorem evaluated at a concrete delivery. -/
theorem c7_invalid_signature_no_processing_witness :
    Webhook.POST false [] (fun _ => envOk) dbEmpty =
      { status := 200, message := "Invalid signature", db := dbEmpty, pushes := [] } :=
  c7_invalid_signature_no_processing [] (fun _ => envOk) dbEmpty

/-! ## C8: membership insert never changes the resolved family id -/

/-- C8: the `family_members` insert attempted at the end of
`getOrCreateFamily` never changes the returned family id and never aborts
the caller: for every membership-insert outcome (success, duplicate-key
failure, or any other failure message) the returned id equals the one
determined by the family-resolution phase. -/
theorem c8_membership_insert_never_changes_family_id
    (env : Webhook.WebhookEnv) (db : DB) (profileId : Nat)
    (lineUserId : String) (lineGroupId : Option String) :
    (Webhook.getOrCreateFamily env db profileId lineUserId lineGroupId).fst =
      (Webhook.resolveFamilyId env db profileId lineGroupId).fst := by
  unfold Webhook.getOrCreateFamily
  rcases h : Webhook.resolveFamilyId env db profileId lineGroupId with ⟨fid, db1⟩
  cases fid <;> cases henv : env.memberInsertErr <;> simp [h, henv]

/-- C8 witness: the theorem evaluated at a concrete resolution (a
duplicate-key membership failure, a store already holding the family). -/
theorem c8_membership_insert_never_changes_family_id_witness :
    (Webhook.getOrCreateFamily
        { envOk with memberInsertErr := some "duplicate key value" }
        { dbEmpty with families := [{ id := 7, line_group_id := some "G1", name := "家族グループ" }] }
        3 "U1" (some "G1")).fst =
      (Webhook.resolveFamilyId
        { envOk with memberInsertErr := some "duplicate key value" }
        { dbEmpty with families := [{ id := 7, line_group_id := some "G1", name := "家族グループ" }] }
        3 (some "G1")).fst :=
  c8_membership_insert_never_changes_family_id
    { envOk with memberInsertErr := some "duplicate key value" }
    { dbEmpty with families := [{ id := 7, line_group_id := some "G1", name := "家族グループ" }] }
    3 "U1" (some "G1")

/-! ## C5: degraded sender-scoped variant aborts on all-AI history -/

/-- A store whose conversation log holds five AI-generated rows for
sender 1. -/
def dbAllAI : DB :=
  { profiles := [{ id := 1, line_user_id := "U1", display_name := "Guest", role := "unknown" }],
    families := [], family_members := [],
    conversations :=
      [{ sender_id := 1, family_id := none, content := "AI1", is_ai_generated := true },
       { sender_id := 1, family_id := none, content := "AI2", is_ai_generated := true },
       { sender_id := 1, family_id := none, content := "AI3", is_ai_generated := true },
       { sender_id := 1, family_id := none, content := "AI4", is_ai_generated := true },
       { sender_id := 1, family_id := none, content := "AI5", is_ai_generated := true }],
    daily_topics := [], nextId := 2 }

/-- C5: in the sender-scoped degraded variant, whenever every retrieved
recent row is AI-generated (so zero human rows remain after the filter), the
policy aborts: the store is unchanged (zero new ConversationEntry rows),
nothing is pushed, and no exception escapes — for every environment, so in
particular no generation result is ever turned into a delivery. -/
theorem c5_degraded_all_ai_aborts (env : Webhook.WebhookEnv) (db : DB)
    (senderId : Nat) (lineUserId : String)
    (h : ∀ c ∈ WebhookSolo.recentBySender db senderId, c.is_ai_generated = true) :
    WebhookSolo.handleAIResponse env db senderId lineUserId = (db, [], false) := by
  unfold WebhookSolo.handleAIResponse
  have hf : (WebhookSolo.recentBySender db senderId).filter
      (fun c => !c.is_ai_generated) = [] := by
    rw [List.filter_eq_nil_iff]
    intro c hc
    simp [h c hc]
  by_cases he : (WebhookSolo.recentBySender db senderId).isEmpty
  · simp [he]
  · simp [he, hf]

/-- C5 witness: five AI-generated rows for sender 1; the policy writes
nothing and pushes nothing. -/
theorem c5_degraded_all_ai_aborts_witness :
    (∀ c ∈ WebhookSolo.recentBySender dbAllAI 1, c.is_ai_generated = true) ∧
      WebhookSolo.handleAIResponse envOk dbAllAI 1 "U1" = (dbAllAI, [], false) :=
  ⟨by decide, c5_degraded_all_ai_aborts envOk dbAllAI 1 "U1" (by decide)⟩

/-! ## C4: family-scoped AI co-participation -/

/-- C4: in the family-scoped variant, given 5 prior ConversationEntry rows
for the family and a successful non-empty generation result, the prompt body
passed to generation is all 5 prior entries (human and AI alike, unfiltered)
joined in chronological order, the reply is delivered to the reply target,
and exactly 1 new ConversationEntry with `is_ai_generated = true` is
appended under the same family id. -/
theorem c4_family_scoped_participation
    (env : Webhook.WebhookEnv) (db : DB) (familyId senderId : Nat)
    (replyToId : String) (t : String)
    (h5 : (db.conversations.filter (fun c => c.family_id == some familyId)).length = 5)
    (hgt : env.genThrows = false)
    (hgen : env.gen (Webhook.aiHistory db familyId) = some t)
    (ht : strTrim t ≠ "")
    (hpt : env.pushThrows = false)
    (hins : env.aiConvInsertErr = false) :
    Webhook.aiHistory db familyId =
      String.intercalate "\n"
        ((db.conversations.filter (fun c => c.family_id == some familyId)).map
          (fun c => c.content)) ∧
    Webhook.handleAIResponse env db (some familyId) senderId replyToId =
      ({ db with conversations := db.conversations ++
          [{ sender_id := senderId, family_id := some familyId,
             content := strTrim t, is_ai_generated := true }] },
       [{ target := replyToId, text := strTrim t }], false) := by
  have hrows : Webhook.recentConversations db familyId =
      (db.conversations.filter (fun c => c.family_id == some familyId)).reverse := by
    unfold Webhook.recentConversations
    apply List.take_of_length_le
    rw [List.length_reverse, h5]
  have hhist : Webhook.aiHistory db familyId =
      String.intercalate "\n"
        ((db.conversations.filter (fun c => c.family_id == some familyId)).map
          (fun c => c.content)) := by
    unfold Webhook.aiHistory
    rw [hrows, List.reverse_reverse]
  refine ⟨hhist, ?_⟩
  unfold Webhook.handleAIResponse
  simp [hgt, hgen, hpt, hins, ht]

/-- A store whose conversation log holds five rows for family 1
(3 human, 2 AI-generated). -/
def dbFam5 : DB :=
  { profiles :=
      [{ id := 2, line_user_id := "U1", display_name := "たろう", role := "member" }],
    families := [{ id := 1, line_group_id := some "G1", name := "家族グループ" }],
    family_members := [{ family_id := 1, user_id := 2 }],
    conversations :=
      [{ sender_id := 2, family_id := some 1, content := "おはよう", is_ai_generated := false },
       { sender_id := 2, family_id := some 1, content := "げんき？", is_ai_generated := false },
       { sender_id := 2, family_id := some 1, content := "いいね！", is_ai_generated := true },
       { sender_id := 2, family_id := some 1, content := "きょうは晴れ", is_ai_generated := false },
       { sender_id := 2, family_id := some 1, content := "たのしいね", is_ai_generated := true }],
    daily_topics := [], nextId := 3 }

/-- C4 witness: the theorem evaluated on a 5-row history (3 human, 2 AI). -/
theorem c4_family_scoped_participation_witness :
    Webhook.aiHistory dbFam5 1 =
      String.intercalate "\n"
        ((dbFam5.conversations.filter (fun c => c.family_id == some 1)).map
          (fun c => c.content)) ∧
    Webhook.handleAIResponse envOk dbFam5 (some 1) 2 "G1" =
      ({ dbFam5 with conversations := dbFam5.conversations ++
          [{ sender_id := 2, family_id := some 1,
             content := strTrim "いいね！", is_ai_generated := true }] },
       [{ target := "G1", text := strTrim "いいね！" }], false) :=
  c4_family_scoped_participation envOk dbFam5 1 2 "G1" "いいね！"
    (by decide) rfl rfl (by decide) rfl rfl

/-! ## C1: profile insert failure under a creation race -/

/-- A webhook environment whose `profiles` insert fails (the storage
gateway's response to a unique violation on `line_user_id`). -/
def envDup : Webhook.WebhookEnv := { envOk with profileInsertErr := true }

/-- A plain 1:1 text-message event from the unseen user `U1`. -/
def evHello : Webhook.Event :=
  { type := "message", messageType := "text", text := "こんにちは",
    source := { userId := "U1", groupId := none, roomId := none } }

/-- C1 counterexample: when the `profiles` insert fails (as it does on a
unique violation), `getOrCreateUserProfile` returns `null` — it neither
re-reads nor returns an id — and the webhook run drops the event entirely:
no conversation is logged (`db` unchanged), refuting that the failure is
treated as "someone else just created it" with the event still processed. -/
theorem c1_insert_race_counterexample :
    Webhook.getOrCreateUserProfile envDup dbEmpty "U1" = (none, dbEmpty) ∧
    Webhook.POST true [evHello] (fun _ => envDup) dbEmpty =
      { status := 200, message := "OK", db := dbEmpty, pushes := [] } :=
  ⟨rfl, rfl⟩

/-- C1 amended: for every event from an unseen user whose `profiles` insert
fails (in particular on a unique violation), `getOrCreateUserProfile`
returns `null` without re-reading, the webhook skips that event — no row of
any table is written and nothing is pushed — and the failure is still never
surfaced as a user-visible error: the delivery is answered 200 "OK". -/
theorem c1_insert_race_amended (env : Webhook.WebhookEnv) (db : DB)
    (ev : Webhook.Event)
    (htype : ev.type = "message") (hmt : ev.messageType = "text")
    (hnew : db.profiles.filter (fun p => p.line_user_id == ev.source.userId) = [])
    (hfail : env.profileInsertErr = true) :
    Webhook.getOrCreateUserProfile env db ev.source.userId = (none, db) ∧
    Webhook.processEvent env db ev = (db, [], false) ∧
    Webhook.POST true [ev] (fun _ => env) db =
      { status := 200, message := "OK", db := db, pushes := [] } := by
  have h1 : Webhook.getOrCreateUserProfile env db ev.source.userId = (none, db) := by
    unfold Webhook.getOrCreateUserProfile
    rw [hnew]
    simp [hfail]
  have h2 : Webhook.processEvent env db ev = (db, [], false) := by
    unfold Webhook.processEvent
    simp [htype, hmt, h1]
  refine ⟨h1, h2, ?_⟩
  unfold Webhook.POST Webhook.processEvents
  simp [h2]
  rfl

/-- C1 witness: the amended theorem evaluated at the concrete failing
delivery. -/
theorem c1_insert_race_amended_witness :
    Webhook.getOrCreateUserProfile envDup dbEmpty "U1" = (none, dbEmpty) ∧
    Webhook.processEvent envDup dbEmpty evHello = (dbEmpty, [], false) ∧
    Webhook.POST true [evHello] (fun _ => envDup) dbEmpty =
      { status := 200, message := "OK", db := dbEmpty, pushes := [] } :=
  c1_insert_race_amended envDup dbEmpty evHello rfl rfl rfl rfl

/-! ## C2: DailyTopic recording vs delivery outcome -/

/-- A group-linked family used by the broadcast fixtures. -/
def famG : Family := { id := 1, line_group_id := some "G1", name := "家族グループ" }

/-- A store with one group-linked family, one member profile. -/
def dbOneFam : DB :=
  { profiles := [{ id := 2, line_user_id := "U1", display_name := "Guest", role := "member" }],
    families := [famG],
    family_members := [{ family_id := 1, user_id := 2 }],
    conversations := [], daily_topics := [], nextId := 3 }

/-- A broadcast environment where the topic generates but both the group
push and the individual fallback push fail. -/
def ceFailBoth : DailyTopicCron.CronEnv :=
  { gen := some "週末は何する？", groupPushOk := false, fallbackPushOk := false,
    directPushOk := true, dailyInsertErr := false }

/-- C2 counterexample: a family for which a non-empty topic was generated,
whose group push fails and whose individual fallback (a member exists and is
resolved) also fails: the run counts it as an error and leaves the store
unchanged — in particular no `daily_topics` row is recorded, refuting
"recorded regardless of delivery outcome". -/
theorem c2_daily_topic_counterexample :
    DailyTopicCron.GET false (fun _ => ceFailBoth) dbOneFam =
      { status := 200, processed := some 1, success := some 0, errors := some 1,
        db := dbOneFam, pushes := [] } ∧
    dbOneFam.daily_topics = [] :=
  ⟨rfl, rfl⟩

/-- Case analysis of the per-family broadcast body: every path either fails
the family with the store untouched, or reaches the save step with the
generated topic. -/
lemma cronStep_eq_or (ce : DailyTopicCron.CronEnv) (db : DB) (fam : Family) :
    DailyTopicCron.cronStep ce db fam = (db, [], false) ∨
    ∃ t ps, ce.gen.map strTrim = some t ∧
      DailyTopicCron.cronStep ce db fam = DailyTopicCron.cronSave ce db fam t ps := by
  unfold DailyTopicCron.cronStep
  rcases hg : ce.gen with _ | topic
  · left; rfl
  · simp only [hg, Option.map_some']
    by_cases hte : (strTrim topic == "") = true
    · simp [hte]
    · simp only [Bool.not_eq_true] at hte
      simp only [hte, Bool.false_eq_true, if_false]
      rcases hlg : fam.line_group_id with _ | g
      · rcases hm : DailyTopicCron.getFamilyMemberLineUserId db fam.id with _ | u
        · left; rfl
        · by_cases hd : ce.directPushOk
          · right
            exact ⟨strTrim topic, [{ target := u, text := strTrim topic }],
              by simp [hg], by simp [hd]⟩
          · left; simp [hd]
      · by_cases hgp : ce.groupPushOk
        · right
          exact ⟨strTrim topic, [{ target := g, text := strTrim topic }],
            by simp [hg], by simp [hgp]⟩
        · simp only [hgp, Bool.false_eq_true, if_false]
          rcases hm : DailyTopicCron.getFamilyMemberLineUserId db fam.id with _ | u
          · left; rfl
          · by_cases hf : ce.fallbackPushOk
            · right
              exact ⟨strTrim topic, [{ target := u, text := strTrim topic }],
                by simp [hg], by simp [hf]⟩
            · left; simp [hf]

/-- C2 amended: a DailyTopic row is recorded exactly for families whose
topic was delivered (directly or via the fallback): when the family is
counted as an error the store is unchanged (the insert is never attempted);
when it is counted as a success the insert of the generated topic is
attempted best-effort — it appends the row when the storage write succeeds,
and its own failure still leaves the family counted as a success. -/
theorem c2_daily_topic_amended (ce : DailyTopicCron.CronEnv) (db : DB) (fam : Family) :
    ((DailyTopicCron.cronStep ce db fam).2.2 = false →
      (DailyTopicCron.cronStep ce db fam).1 = db) ∧
    ((DailyTopicCron.cronStep ce db fam).2.2 = true → ce.dailyInsertErr = false →
      ∃ t, ce.gen.map strTrim = some t ∧
        (DailyTopicCron.cronStep ce db fam).1.daily_topics =
          db.daily_topics ++
            [{ family_id := some fam.id, topic := t, sent_to_user_id := none }]) ∧
    ((DailyTopicCron.cronStep ce db fam).2.2 = true → ce.dailyInsertErr = true →
      (DailyTopicCron.cronStep ce db fam).1 = db) := by
  rcases cronStep_eq_or ce db fam with h | ⟨t, ps, hgen, h⟩
  · rw [h]
    refine ⟨fun _ => rfl, ?_, ?_⟩ <;> · intro hc; simp at hc
  · rcases hd : ce.dailyInsertErr
    · have hsave : DailyTopicCron.cronSave ce db fam t ps =
          ({ db with daily_topics := db.daily_topics ++
              [{ family_id := some fam.id, topic := t, sent_to_user_id := none }] },
           ps, true) := by
        unfold DailyTopicCron.cronSave
        simp [hd]
      rw [h, hsave]
      refine ⟨?_, ?_, ?_⟩
      · intro hc; simp at hc
      · intro _ _; exact ⟨t, hgen, rfl⟩
      · intro _ hc; simp [hd] at hc
    · have hsave : DailyTopicCron.cronSave ce db fam t ps = (db, ps, true) := by
        unfold DailyTopicCron.cronSave
        simp [hd]
      rw [h, hsave]
      refine ⟨?_, ?_, ?_⟩
      · intro hc; simp at hc
      · intro _ hc; simp [hd] at hc
      · intro _ _; rfl

/-- C2 witness: the amended theorem evaluated at a concrete family whose
group push and fallback both fail. -/
theorem c2_daily_topic_amended_witness :
    ((DailyTopicCron.cronStep ceFailBoth dbOneFam famG).2.2 = false →
      (DailyTopicCron.cronStep ceFailBoth dbOneFam famG).1 = dbOneFam) ∧
    ((DailyTopicCron.cronStep ceFailBoth dbOneFam famG).2.2 = true →
      ceFailBoth.dailyInsertErr = false →
      ∃ t, ceFailBoth.gen.map strTrim = some t ∧
        (DailyTopicCron.cronStep ceFailBoth dbOneFam famG).1.daily_topics =
          dbOneFam.daily_topics ++
            [{ family_id := some famG.id, topic := t, sent_to_user_id := none }]) ∧
    ((DailyTopicCron.cronStep ceFailBoth dbOneFam famG).2.2 = true →
      ceFailBoth.dailyInsertErr = true →
      (DailyTopicCron.cronStep ceFailBoth dbOneFam famG).1 = dbOneFam) :=
  c2_daily_topic_amended ceFailBoth dbOneFam famG

/-! ## C6 and C10: scheduled broadcast counters -/

/-- Three group-linked families A, B, C. -/
def db3Fams : DB :=
  { profiles := [], families :=
      [{ id := 1, line_group_id := some "GA", name := "家族グループ" },
       { id := 2, line_group_id := some "GB", name := "家族グループ" },
       { id := 3, line_group_id := some "GC", name := "家族グループ" }],
    family_members := [], conversations := [], daily_topics := [], nextId := 4 }

/-- A broadcast run where family B's topic generation fails and everything
else succeeds. -/
def env3 : Nat → DailyTopicCron.CronEnv := fun i =>
  if i == 1 then
    { gen := none, groupPushOk := true, fallbackPushOk := true,
      directPushOk := true, dailyInsertErr := false }
  else
    { gen := some (if i == 0 then "話題A" else "話題C"), groupPushOk := true,
      fallbackPushOk := true, directPushOk := true, dailyInsertErr := false }

/-- C6: scheduled broadcast over 3 families where family B's generation call
fails: the failure is caught and counted without aborting the batch, the
response reports processed = 3, success = 2, errors = 1, and families A and
C still receive their messages (pushes to GA and GC). -/
theorem c6_three_family_example :
    DailyTopicCron.GET false env3 db3Fams =
      { status := 200, processed := some 3, success := some 2, errors := some 1,
        db := { db3Fams with daily_topics :=
          [{ family_id := some 1, topic := "話題A", sent_to_user_id := none },
           { family_id := some 3, topic := "話題C", sent_to_user_id := none }] },
        pushes := [{ target := "GA", text := "話題A" },
                   { target := "GC", text := "話題C" }] } := by
  rfl

/-- Each loop iteration of the broadcast increments exactly one of the two
counters, so their sum grows by the number of families traversed. -/
lemma cronLoop_counts (env : Nat → DailyTopicCron.CronEnv) (fams : List Family) :
    ∀ i db acc s e,
      (DailyTopicCron.cronLoop env i fams db acc s e).2.2.1 +
        (DailyTopicCron.cronLoop env i fams db acc s e).2.2.2 =
      s + e + fams.length := by
  induction fams with
  | nil => intro i db acc s e; simp [DailyTopicCron.cronLoop]
  | cons fam rest ih =>
    intro i db acc s e
    unfold DailyTopicCron.cronLoop
    rcases h : DailyTopicCron.cronStep (env i) db fam with ⟨db1, p, ok⟩
    cases ok <;> simp [h, ih] <;> omega

/-- C10: whenever the scheduled broadcast returns its normal summary over a
non-empty family list, the counts partition the batch: processed equals the
number of Family rows fetched and success + errors = processed, for every
environment. -/
theorem c10_counts_partition (env : Nat → DailyTopicCron.CronEnv) (db : DB)
    (h : db.families ≠ []) :
    (DailyTopicCron.GET false env db).status = 200 ∧
    (DailyTopicCron.GET false env db).processed = some db.families.length ∧
    ∃ s e, (DailyTopicCron.GET false env db).success = some s ∧
      (DailyTopicCron.GET false env db).errors = some e ∧
      s + e = db.families.length := by
  have hne : db.families.isEmpty = false := by
    simp [List.isEmpty_iff, h]
  have hc := cronLoop_counts env db.families 0 db [] 0 0
  unfold DailyTopicCron.GET
  rcases hl : DailyTopicCron.cronLoop env 0 db.families db [] 0 0 with ⟨db1, ps, s, e⟩
  rw [hl] at hc
  simp only [hne, Bool.false_eq_true, if_false, hl]
  exact ⟨trivial, trivial, s, e, rfl, rfl, by simpa using hc⟩

/-- C10 witness: the partition evaluated on the three-family run. -/
theorem c10_counts_partition_witness :
    (DailyTopicCron.GET false env3 db3Fams).status = 200 ∧
    (DailyTopicCron.GET false env3 db3Fams).processed = some db3Fams.families.length ∧
    ∃ s e, (DailyTopicCron.GET false env3 db3Fams).success = some s ∧
      (DailyTopicCron.GET false env3 db3Fams).errors = some e ∧
      s + e = db3Fams.families.length :=
  c10_counts_partition env3 db3Fams (by decide)

/-! ## C3: personal family reuse on a second 1:1 event -/

/-- In the found branch of the personal case, `getOrCreateFamily` reuses
the joined family id and only appends the membership row. -/
lemma c3_case_found (env : Webhook.WebhookEnv) (db : DB) (pid : Nat)
    (uid : String) (m : FamilyMember) (hIns : env.memberInsertErr = none)
    (hf : db.family_members.find? (Webhook.personalPred db pid) = some m) :
    Webhook.getOrCreateFamily env db pid uid none =
      (some m.family_id,
       { db with family_members :=
           db.family_members ++ [{ family_id := m.family_id, user_id := pid }] }) := by
  unfold Webhook.getOrCreateFamily Webhook.resolveFamilyId
  simp [hf, hIns]

/-- Second resolution after the found branch: the same membership is still
the first match, so the same family id is reused and no family is added. -/
lemma c3_case_found_full (env env2 : Webhook.WebhookEnv) (db : DB) (pid : Nat)
    (uid uid2 : String) (m : FamilyMember) (hIns : env.memberInsertErr = none)
    (hf : db.family_members.find? (Webhook.personalPred db pid) = some m) :
    (Webhook.getOrCreateFamily env2
        (Webhook.getOrCreateFamily env db pid uid none).snd pid uid2 none).fst =
      (Webhook.getOrCreateFamily env db pid uid none).fst ∧
    (Webhook.getOrCreateFamily env2
        (Webhook.getOrCreateFamily env db pid uid none).snd pid uid2 none).snd.families =
      (Webhook.getOrCreateFamily env db pid uid none).snd.families := by
  have e1 := c3_case_found env db pid uid m hIns hf
  set dbA : DB :=
    { db with family_members :=
        db.family_members ++ [{ family_id := m.family_id, user_id := pid }] } with hdbA
  have hf2 : dbA.family_members.find? (Webhook.personalPred dbA pid) = some m := by
    have hmem : dbA.family_members =
        db.family_members ++ [{ family_id := m.family_id, user_id := pid }] := rfl
    rw [hmem, List.find?_append]
    have hp : Webhook.personalPred dbA pid = Webhook.personalPred db pid := rfl
    rw [hp, hf]
    rfl
  have e2 : Webhook.resolveFamilyId env2 dbA pid none = (some m.family_id, dbA) := by
    unfold Webhook.resolveFamilyId
    simp [hf2]
  rw [e1]
  unfold Webhook.getOrCreateFamily
  rw [e2]
  rcases env2.memberInsertErr with _ | msg <;> simp

/-- The store after `getOrCreateFamily` creates a personal family and
registers its membership. -/
def dbAfterPersonalCreate (db : DB) (pid : Nat) : DB :=
  { db with
    families := db.families ++
      [{ id := db.nextId, line_group_id := none, name := "マイホーム" }],
    nextId := db.nextId + 1,
    family_members := db.family_members ++
      [{ family_id := db.nextId, user_id := pid }] }

/-- In the not-found branch of the personal case (with a working `families`
insert), `getOrCreateFamily` creates the personal family and registers the
membership. -/
lemma c3_case_create (env : Webhook.WebhookEnv) (db : DB) (pid : Nat)
    (uid : String) (hIns : env.memberInsertErr = none)
    (hOk : env.familiesInsertOk = true)
    (hf : db.family_members.find? (Webhook.personalPred db pid) = none) :
    Webhook.getOrCreateFamily env db pid uid none =
      (some db.nextId, dbAfterPersonalCreate db pid) := by
  unfold Webhook.getOrCreateFamily Webhook.resolveFamilyId dbAfterPersonalCreate
  simp [hf, hOk, hIns]

/-- After the creation, the personal-membership lookup finds a membership
whose family id is the freshly created one: any pre-existing membership that
newly matches can only point at the new family, and otherwise the appended
membership row matches. -/
lemma c3_find_after_create (db : DB) (pid : Nat)
    (hf : db.family_members.find? (Webhook.personalPred db pid) = none) :
    ∃ m2, (dbAfterPersonalCreate db pid).family_members.find?
        (Webhook.personalPred (dbAfterPersonalCreate db pid) pid) = some m2 ∧
      m2.family_id = db.nextId := by
  have hmem : (dbAfterPersonalCreate db pid).family_members =
      db.family_members ++ [{ family_id := db.nextId, user_id := pid }] := rfl
  rw [hmem, List.find?_append]
  rcases h1 : db.family_members.find?
      (Webhook.personalPred (dbAfterPersonalCreate db pid) pid) with _ | m0
  · refine ⟨{ family_id := db.nextId, user_id := pid }, ?_, rfl⟩
    have hp : Webhook.personalPred (dbAfterPersonalCreate db pid) pid
        { family_id := db.nextId, user_id := pid } = true := by
      unfold Webhook.personalPred dbAfterPersonalCreate
      simp
    simp [List.find?, hp]
  · refine ⟨m0, by simp [Option.or], ?_⟩
    have hp1 : Webhook.personalPred (dbAfterPersonalCreate db pid) pid m0 = true :=
      List.find?_some h1
    have hm0 : m0 ∈ db.family_members := List.mem_of_find?_eq_some h1
    have hp0 : ¬ Webhook.personalPred db pid m0 = true :=
      List.find?_eq_none.mp hf m0 hm0
    have hfams : (dbAfterPersonalCreate db pid).families =
        db.families ++
          [{ id := db.nextId, line_group_id := none, name := "マイホーム" }] := rfl
    unfold Webhook.personalPred at hp1 hp0
    rw [hfams] at hp1
    simp only [List.any_append, Bool.and_eq_true, Bool.or_eq_true] at hp1
    obtain ⟨hu, hq⟩ := hp1
    rcases hq with hq | hq
    · exact absurd (by simp [hu, hq]) hp0
    · simp at hq
      omega

/-- Second resolution after the creation branch: the lookup finds a
membership of the created family, so the same family id is returned and no
further family is created. -/
lemma c3_case_create_full (env env2 : Webhook.WebhookEnv) (db : DB) (pid : Nat)
    (uid uid2 : String) (hIns : env.memberInsertErr = none)
    (hOk : env.familiesInsertOk = true)
    (hf : db.family_members.find? (Webhook.personalPred db pid) = none) :
    (Webhook.getOrCreateFamily env2
        (Webhook.getOrCreateFamily env db pid uid none).snd pid uid2 none).fst =
      (Webhook.getOrCreateFamily env db pid uid none).fst ∧
    (Webhook.getOrCreateFamily env2
        (Webhook.getOrCreateFamily env db pid uid none).snd pid uid2 none).snd.families =
      (Webhook.getOrCreateFamily env db pid uid none).snd.families := by
  have e1 := c3_case_create env db pid uid hIns hOk hf
  obtain ⟨m2, hfind, hfid⟩ := c3_find_after_create db pid hf
  have e2 : Webhook.resolveFamilyId env2 (dbAfterPersonalCreate db pid) pid none =
      (some m2.family_id, dbAfterPersonalCreate db pid) := by
    unfold Webhook.resolveFamilyId
    simp [hfind]
  rw [e1]
  unfold Webhook.getOrCreateFamily
  rw [e2]
  rcases env2.memberInsertErr with _ | msg <;> simp [hfid]

/-- C3: for a personal (no group-channel) user whose first resolution
succeeded and registered its membership, a second 1:1 resolution — under any
environment — returns the same Family id, and the Family table after the
second resolution equals the one after the first: no duplicate personal
family is created. -/
theorem c3_personal_family_reuse (env env2 : Webhook.WebhookEnv) (db : DB)
    (pid : Nat) (uid uid2 : String)
    (hIns : env.memberInsertErr = none)
    (hok : (Webhook.getOrCreateFamily env db pid uid none).fst.isSome = true) :
    (Webhook.getOrCreateFamily env2
        (Webhook.getOrCreateFamily env db pid uid none).snd pid uid2 none).fst =
      (Webhook.getOrCreateFamily env db pid uid none).fst ∧
    (Webhook.getOrCreateFamily env2
        (Webhook.getOrCreateFamily env db pid uid none).snd pid uid2 none).snd.families =
      (Webhook.getOrCreateFamily env db pid uid none).snd.families := by
  rcases hf : db.family_members.find? (Webhook.personalPred db pid) with _ | m
  · rcases hOk : env.familiesInsertOk
    · exfalso
      have hnone : Webhook.getOrCreateFamily env db pid uid none = (none, db) := by
        unfold Webhook.getOrCreateFamily Webhook.resolveFamilyId
        simp [hf, hOk]
      rw [hnone] at hok
      simp at hok
    · exact c3_case_create_full env env2 db pid uid uid2 hIns hOk hf
  · exact c3_case_found_full env env2 db pid uid uid2 m hIns hf

/-- C3 witness: starting from an empty store, the first 1:1 resolution
creates the personal family and the second returns the same id with no new
family row. -/
theorem c3_personal_family_reuse_witness :
    (Webhook.getOrCreateFamily envOk
        (Webhook.getOrCreateFamily envOk dbEmpty 1 "U1" none).snd 1 "U1" none).fst =
      (Webhook.getOrCreateFamily envOk dbEmpty 1 "U1" none).fst ∧
    (Webhook.getOrCreateFamily envOk
        (Webhook.getOrCreateFamily envOk dbEmpty 1 "U1" none).snd 1 "U1" none).snd.families =
      (Webhook.getOrCreateFamily envOk dbEmpty 1 "U1" none).snd.families :=
  c3_personal_family_reuse envOk envOk dbEmpty 1 "U1" "U1" rfl (by decide)

/-! ## C9: AI-generated entries are always family-scoped -/

/-- `getOrCreateUserProfile` never touches the conversation log. -/
lemma getOrCreateUserProfile_conversations (env : Webhook.WebhookEnv) (db : DB)
    (userId : String) :
    ((Webhook.getOrCreateUserProfile env db userId).2).conversations =
      db.conversations := by
  unfold Webhook.getOrCreateUserProfile
  split
  · rfl
  · split <;> (split <;> rfl)

/-- The family-determination phase never touches the conversation log. -/
lemma resolveFamilyId_conversations (env : Webhook.WebhookEnv) (db : DB)
    (pid : Nat) (gid : Option String) :
    ((Webhook.resolveFamilyId env db pid gid).2).conversations =
      db.conversations := by
  rcases gid with _ | g
  · dsimp only [Webhook.resolveFamilyId]
    split
    · rfl
    · split <;> rfl
  · dsimp only [Webhook.resolveFamilyId]
    split
    · rfl
    · split <;> rfl

/-- `getOrCreateFamily` never touches the conversation log. -/
lemma getOrCreateFamily_conversations (env : Webhook.WebhookEnv) (db : DB)
    (pid : Nat) (uid : String) (gid : Option String) :
    ((Webhook.getOrCreateFamily env db pid uid gid).2).conversations =
      db.conversations := by
  unfold Webhook.getOrCreateFamily
  have h := resolveFamilyId_conversations env db pid gid
  rcases hr : Webhook.resolveFamilyId env db pid gid with ⟨fid, db1⟩
  rw [hr] at h
  rcases fid with _ | f
  · exact h
  · rcases env.memberInsertErr with _ | msg
    · exact h
    · exact h

/-- `handleAIResponse` only ever appends entries to the conversation log,
and every appended AI-generated entry carries a non-null family id. -/
lemma handleAIResponse_conversations (env : Webhook.WebhookEnv) (db : DB)
    (fid : Option Nat) (s : Nat) (r : String) :
    ∃ l, (Webhook.handleAIResponse env db fid s r).1.conversations =
        db.conversations ++ l ∧
      ∀ c ∈ l, c.is_ai_generated = true → c.family_id.isSome = true := by
  unfold Webhook.handleAIResponse
  rcases fid with _ | f
  · exact ⟨[], by simp, by simp⟩
  · by_cases h1 : env.genThrows
    · exact ⟨[], by simp [h1], by simp⟩
    · rcases h2 : (env.gen (Webhook.aiHistory db f)).map strTrim with _ | t
      · exact ⟨[], by simp [h1, h2], by simp⟩
      · by_cases h3 : (t == "") = true
        · exact ⟨[], by simp [h1, h2, h3], by simp⟩
        · by_cases h4 : env.pushThrows
          · exact ⟨[], by simp [h1, h2, h3, h4], by simp⟩
          · by_cases h5 : env.aiConvInsertErr
            · exact ⟨[], by simp [h1, h2, h3, h4, h5], by simp⟩
            · refine ⟨[Conversation.mk s (some f) t true], ?_, ?_⟩
              · simp [h1, h2, h3, h4, h5]
              · simp

/-- Processing one webhook event only appends to the conversation log, and
every appended AI-generated entry carries a non-null family id (the human
entry is not AI-generated; AI entries come from the family-scoped
`handleAIResponse`). -/
lemma processEvent_conversations (env : Webhook.WebhookEnv) (db : DB)
    (ev : Webhook.Event) :
    ∃ l, (Webhook.processEvent env db ev).1.conversations =
        db.conversations ++ l ∧
      ∀ c ∈ l, c.is_ai_generated = true → c.family_id.isSome = true := by
  unfold Webhook.processEvent
  by_cases hg : (ev.type != "message" || ev.messageType != "text") = true
  · exact ⟨[], by simp [hg], by simp⟩
  · simp only [hg, Bool.false_eq_true, if_false]
    have hp := getOrCreateUserProfile_conversations env db ev.source.userId
    rcases hpe : Webhook.getOrCreateUserProfile env db ev.source.userId with ⟨pidOpt, db1⟩
    rw [hpe] at hp
    have hp1 : db1.conversations = db.conversations := hp
    rcases pidOpt with _ | pid
    · exact ⟨[], by simp [hpe, hp1], by simp⟩
    · have hfc := getOrCreateFamily_conversations env db1 pid ev.source.userId
        (ev.source.groupId <|> ev.source.roomId)
      rcases hfe : Webhook.getOrCreateFamily env db1 pid ev.source.userId
          (ev.source.groupId <|> ev.source.roomId) with ⟨fidOpt, db2⟩
      rw [hfe] at hfc
      have hfc2 : db2.conversations = db1.conversations := hfc
      by_cases hce : env.convInsertErr
      · exact ⟨[], by simp [hpe, hfe, hce, hp1, hfc2], by simp⟩
      · simp only [hpe, hfe, hce, Bool.false_eq_true, if_false]
        rcases fidOpt with _ | f
        · refine ⟨[Conversation.mk pid none ev.text false], ?_, ?_⟩
          · simp [hfc2, hp1]
          · simp
        · by_cases hai : env.aiTrial
          · simp only [hai, if_true]
            obtain ⟨l2, hl2, hl2ai⟩ := handleAIResponse_conversations env
              { db2 with conversations :=
                  db2.conversations ++ [Conversation.mk pid (some f) ev.text false] }
              (some f) pid ((ev.source.groupId <|> ev.source.roomId).getD ev.source.userId)
            refine ⟨Conversation.mk pid (some f) ev.text false :: l2, ?_, ?_⟩
            · rw [hl2]
              simp [hfc2, hp1, List.append_assoc]
            · intro c hc hcai
              rcases List.mem_cons.mp hc with hceq | hmem
              · rw [hceq] at hcai
                simp at hcai
              · exact hl2ai c hmem hcai
          · refine ⟨[Conversation.mk pid (some f) ev.text false], ?_, ?_⟩
            · simp [hai, hfc2, hp1]
            · simp

/-- The event loop only appends to the conversation log, and every appended
AI-generated entry carries a non-null family id. -/
lemma processEvents_conversations (env : Nat → Webhook.WebhookEnv)
    (events : List Webhook.Event) :
    ∀ i db acc, ∃ l,
      (Webhook.processEvents env i events db acc).1.conversations =
        db.conversations ++ l ∧
      ∀ c ∈ l, c.is_ai_generated = true → c.family_id.isSome = true := by
  induction events with
  | nil =>
    intro i db acc
    exact ⟨[], by simp [Webhook.processEvents], by simp⟩
  | cons ev rest ih =>
    intro i db acc
    unfold Webhook.processEvents
    obtain ⟨l1, hl1, hl1ai⟩ := processEvent_conversations (env i) db ev
    rcases hpe : Webhook.processEvent (env i) db ev with ⟨db1, p, threw⟩
    rw [hpe] at hl1
    have hl1c : db1.conversations = db.conversations ++ l1 := hl1
    cases threw
    · obtain ⟨l2, hl2, hl2ai⟩ := ih (i + 1) db1 (acc ++ p)
      refine ⟨l1 ++ l2, ?_, ?_⟩
      · simp only [hpe, Bool.false_eq_true, if_false]
        rw [hl2, hl1c, List.append_assoc]
      · intro c hc hcai
        rcases List.mem_append.mp hc with hmem | hmem
        · exact hl1ai c hmem hcai
        · exact hl2ai c hmem hcai
    · refine ⟨l1, ?_, hl1ai⟩
      simp only [hpe, if_true]
      exact hl1c

/-- C9: every ConversationEntry written during a group-aware webhook run
with `is_ai_generated = true` carries a non-null family id (the run only
appends entries, and all appended AI entries are family-scoped), and
`handleAIResponse` called with a null family id returns immediately without
generating, delivering or inserting anything. -/
theorem c9_ai_entries_have_family (sigValid : Bool) (events : List Webhook.Event)
    (env : Nat → Webhook.WebhookEnv) (db : DB) :
    (∃ l, (Webhook.POST sigValid events env db).db.conversations =
        db.conversations ++ l ∧
      ∀ c ∈ l, c.is_ai_generated = true → c.family_id.isSome = true) ∧
    (∀ env2 db2 s r, Webhook.handleAIResponse env2 db2 none s r = (db2, [], false)) := by
  refine ⟨?_, fun env2 db2 s r => rfl⟩
  cases sigValid
  · exact ⟨[], by simp [Webhook.POST], by simp⟩
  · obtain ⟨l, hl, hlai⟩ := processEvents_conversations env events 0 db []
    rcases hpe : Webhook.processEvents env 0 events db [] with ⟨db1, pushes, threw⟩
    rw [hpe] at hl
    have hl1 : db1.conversations = db.conversations ++ l := hl
    refine ⟨l, ?_, hlai⟩
    unfold Webhook.POST
    rw [hpe]
    cases threw <;> simpa using hl1

/-- C9 witness: the invariant evaluated on a concrete delivery. -/
theorem c9_ai_entries_have_family_witness :
    (∃ l, (Webhook.POST true [evHello] (fun _ => envOk) dbEmpty).db.conversations =
        dbEmpty.conversations ++ l ∧
      ∀ c ∈ l, c.is_ai_generated = true → c.family_id.isSome = true) ∧
    (∀ env2 db2 s r, Webhook.handleAIResponse env2 db2 none s r = (db2, [], false)) :=
  c9_ai_entries_have_family true [evHello] (fun _ => envOk) dbEmpty
